import Mathlib

/-!
Shallow embedding of the spring-phenology aggregation engine of
`scripts/analyze_spring.py`: geographic zoning, percentile-based onset
estimation, the baseline/anomaly evaluator with its three-level granularity
fallback, the species aggregator, the indicator selector, and the zone and
overall rollups.  Machine reals are modelled by exact rationals; Python's
`round(x, n)` (round-half-to-even) is modelled exactly on ℚ; Python's
`sorted` (a stable sort) is modelled by `List.insertionSort`, which is also
stable, applied to the same total preorder.  Dates are modelled by their
(year, day-of-year) pair, which is order-isomorphic to calendar dates.
-/

namespace SpringAnalysis

/-- Python `round` to an integer: round-half-to-even on an exact rational. -/
def roundHalfEven (x : ℚ) : ℤ :=
  let f : ℤ := ⌊x⌋
  if x - f < 1/2 then f
  else if 1/2 < x - f then f + 1
  else if f % 2 = 0 then f else f + 1

/-- Python `round(x, 1)`. -/
def round1 (x : ℚ) : ℚ := (roundHalfEven (x * 10) : ℚ) / 10

/-- Python `round(x, 2)`. -/
def round2 (x : ℚ) : ℚ := (roundHalfEven (x * 100) : ℚ) / 100

/-- `classify_status` in `analyze_spring.py`: ±7-day thresholds. -/
def classify_status (anomaly_days : ℚ) : String :=
  if anomaly_days ≤ -7 then "early"
  else if 7 ≤ anomaly_days then "late"
  else "normal"

/-- `cascade_divide_lon`: coarse linear approximation of the Cascade crest. -/
def cascade_divide_lon (lat : ℚ) : ℚ :=
  -121.80 + (lat - 45.5) * 0.14

/-- `side_of_cascades`: "east" iff strictly east of the divide. -/
def side_of_cascades (lat lon : ℚ) : String :=
  if cascade_divide_lon lat < lon then "east" else "west"

/-- `elevation_band`. -/
def elevation_band (elev_m : Option ℚ) : String :=
  match elev_m with
  | none => "unknown"
  | some e => if e < 500 then "low" else if e < 1200 then "mid" else "high"

/-- `percentile(values, p)`: raises on an empty list; a single element is
returned unchanged; otherwise type-7 linear interpolation between order
statistics of the ascending sort.  (For `p ∈ [0, 1]` — the program only ever
passes `p = 0.2` — the computed indices are in range, so plain `getD`
indexing models Python list indexing.) -/
def percentile (values : List ℚ) (p : ℚ) : Except String ℚ :=
  if values.isEmpty then Except.error "percentile() requires non-empty values"
  else if values.length = 1 then Except.ok (values.headD 0)
  else
    let seq := values.insertionSort (· ≤ ·)
    let idx : ℚ := ((values.length : ℚ) - 1) * p
    let lo : ℤ := ⌊idx⌋
    let hi : ℤ := ⌈idx⌉
    if lo = hi then Except.ok (seq.getD lo.toNat 0)
    else
      let frac : ℚ := idx - (lo : ℚ)
      Except.ok (seq.getD lo.toNat 0 * (1 - frac) + seq.getD hi.toNat 0 * frac)

/-- Total wrapper for `percentile` at call sites where the program
guarantees non-emptiness by construction. -/
def percentileD (values : List ℚ) (p : ℚ) : ℚ :=
  match percentile values p with
  | Except.ok v => v
  | Except.error _ => 0

/-- Python `statistics.median`: middle of the ascending sort, averaging the
two middles for even length.  Only applied to non-empty lists. -/
def median (values : List ℚ) : ℚ :=
  let s := values.insertionSort (· ≤ ·)
  let n := s.length
  if n % 2 = 1 then s.getD (n / 2) 0
  else (s.getD (n / 2 - 1) 0 + s.getD (n / 2) 0) / 2

/-- `⌈⌉` in terms of `⌊⌋`, letting `norm_num` evaluate ceilings. -/
theorem rat_ceil_eq_neg_floor_neg (a : ℚ) : ⌈a⌉ = -⌊-a⌋ := by
  rw [Int.floor_neg, neg_neg]

example : percentileD [3, 1, 2] (0.2 : ℚ) = 14/10 := by
  norm_num [percentileD, percentile, rat_ceil_eq_neg_floor_neg,
    List.insertionSort, List.orderedInsert]

example : percentileD [71, 71, 71] (0.2 : ℚ) = 71 := by
  norm_num [percentileD, percentile, rat_ceil_eq_neg_floor_neg,
    List.insertionSort, List.orderedInsert]

example : median [70, 72, 75, 60] = 71 := by
  norm_num [median, List.insertionSort, List.orderedInsert]

example : round1 (29 : ℚ) = 29 := by
  norm_num [round1, roundHalfEven]

example : classify_status (-12.6) = "early" := by
  norm_num [classify_status]

/-- One parsed observation.  Identification and presentation fields of the
Python dataclass (species name, taxon id, uri, photo, place guess) are inert
pass-through data and are not represented; a date is represented by its
(year, day-of-year) pair, which determines it and preserves date order. -/
structure Observation where
  year : ℤ
  doy : ℤ
  lat : ℚ
  lon : ℚ
  elev_m : Option ℚ
deriving DecidableEq

/-- The run configuration: `CURRENT_DATE` as (year, day-of-year).  The
baseline window is the nine years `currentYear - 9 … currentYear - 1`. -/
structure Ctx where
  currentYear : ℤ
  todayDoy : ℤ
deriving DecidableEq

/-- The zone key `f"{side}-{elevation_band}"` of an observation. -/
def zoneKeyOf (o : Observation) : String :=
  side_of_cascades o.lat o.lon ++ "-" ++ elevation_band o.elev_m

/-- The Cascade-side key of an observation. -/
def sideKeyOf (o : Observation) : String :=
  side_of_cascades o.lat o.lon

/-- Group keys in first-appearance order: the iteration order of the
`defaultdict` built by the observation loop. -/
def groupKeys (key : Observation → String) (obs : List Observation) : List String :=
  (obs.map key).foldl (fun acc z => if z ∈ acc then acc else acc ++ [z]) []

/-- The day-of-year values `by_*_year[g][y]`, in observation order. -/
def groupDoys (key : Observation → String) (obs : List Observation)
    (g : String) (y : ℤ) : List ℚ :=
  (obs.filter fun o => key o == g && o.year == y).map fun o => (o.doy : ℚ)

/-- `current_obs_by_*[g]`: current-year observations of the group dated on or
before the analysis date. -/
def currentCount (ctx : Ctx) (key : Observation → String)
    (obs : List Observation) (g : String) : ℕ :=
  (obs.filter fun o =>
    key o == g && o.year == ctx.currentYear && decide (o.doy ≤ ctx.todayDoy)).length

/-- `current_obs_state`: all current-year observations on or before the
analysis date, regardless of group. -/
def currentObsState (ctx : Ctx) (obs : List Observation) : ℕ :=
  (obs.filter fun o =>
    o.year == ctx.currentYear && decide (o.doy ≤ ctx.todayDoy)).length

/-- One Zone Result row of `eval_groups`. -/
structure ZoneRow where
  zone : String
  baseline_doy : ℚ
  current_doy : Option ℚ
  anomaly_days : ℚ
  status : String
  baseline_years : ℕ
  current_obs : ℕ
  has_current : Bool
deriving DecidableEq

/-- The per-year 20th-percentile onsets of the baseline years that have at
least `min_year_obs` observations (step 1 of the evaluator). -/
def baselineOnsets (ctx : Ctx) (yearDoys : ℤ → List ℚ) (minYearObs : ℕ) :
    List ℚ :=
  ((List.range 9).map fun i : ℕ => ctx.currentYear - 9 + (i : ℤ)).filterMap fun y =>
    if minYearObs ≤ (yearDoys y).length then some (percentileD (yearDoys y) (0.2 : ℚ))
    else none

/-- The body of the `eval_groups` loop for one group: `none` when the group
is not admitted (fewer than `min_baseline_years` qualifying years). -/
def evalRow (ctx : Ctx) (g : String) (yearDoys : ℤ → List ℚ)
    (currentObs : ℕ) (minYearObs minBaselineYears : ℕ) : Option ZoneRow :=
  let onsets := baselineOnsets ctx yearDoys minYearObs
  if onsets.length < minBaselineYears then none
  else
    let baseline := median onsets
    let currentDoys := yearDoys ctx.currentYear
    if currentDoys.isEmpty then
      let anomaly := (ctx.todayDoy : ℚ) - baseline
      some { zone := g, baseline_doy := round1 baseline, current_doy := none,
             anomaly_days := round1 anomaly,
             status := if 7 ≤ anomaly then "late" else "pending",
             baseline_years := onsets.length, current_obs := currentObs,
             has_current := false }
    else
      let cur := percentileD currentDoys (0.2 : ℚ)
      let anomaly := cur - baseline
      some { zone := g, baseline_doy := round1 baseline,
             current_doy := some (round1 cur), anomaly_days := round1 anomaly,
             status := classify_status anomaly,
             baseline_years := onsets.length, current_obs := currentObs,
             has_current := true }

/-- `eval_groups`: one row per admitted group, in group-key order. -/
def eval_groups (ctx : Ctx) (keys : List String)
    (yearDoys : String → ℤ → List ℚ) (currentObsOf : String → ℕ)
    (minYearObs minBaselineYears : ℕ) : List ZoneRow :=
  keys.filterMap fun g =>
    evalRow ctx g (yearDoys g) (currentObsOf g) minYearObs minBaselineYears

/-- Zone-granularity evaluation (`min_year_obs=3`, `min_baseline_years=4`). -/
def zoneEval (ctx : Ctx) (obs : List Observation) : List ZoneRow :=
  eval_groups ctx (groupKeys zoneKeyOf obs) (groupDoys zoneKeyOf obs)
    (currentCount ctx zoneKeyOf obs) 3 4

/-- Cascade-side evaluation (`min_year_obs=2`, `min_baseline_years=4`). -/
def sideEval (ctx : Ctx) (obs : List Observation) : List ZoneRow :=
  eval_groups ctx (groupKeys sideKeyOf obs) (groupDoys sideKeyOf obs)
    (currentCount ctx sideKeyOf obs) 2 4

/-- Statewide evaluation: a single bucket keyed "statewide". -/
def stateEval (ctx : Ctx) (obs : List Observation) : List ZoneRow :=
  eval_groups ctx ["statewide"]
    (fun _ => groupDoys (fun _ => "statewide") obs "statewide")
    (fun _ => currentObsState ctx obs) 2 4

/-- The granularity fallback of `summarize_species`: keep the zone rows if
any, otherwise the side rows, otherwise the statewide rows, recording the
granularity actually used. -/
def selectGranularity (z s st : List ZoneRow) : List ZoneRow × String :=
  if z ≠ [] then (z, "zone")
  else if s ≠ [] then (s, "side")
  else (st, "state")

/-- The admitted rows of a species together with the recorded granularity. -/
def admittedRows (ctx : Ctx) (obs : List Observation) : List ZoneRow × String :=
  selectGranularity (zoneEval ctx obs) (sideEval ctx obs) (stateEval ctx obs)

/-- The weight a Zone Result contributes to the species aggregate: zones with
current data weigh `max(1,baseline_years)*max(1,current_obs)`; zones without
current data but "late" weigh `max(1,baseline_years)`; others contribute 0. -/
def zoneAggWeight (z : ZoneRow) : ℚ :=
  if z.has_current then ((max 1 z.baseline_years * max 1 z.current_obs : ℕ) : ℚ)
  else if z.status == "late" then ((max 1 z.baseline_years : ℕ) : ℚ)
  else 0

/-- `weighted_anomaly_numer` of `summarize_species`. -/
def speciesNumer (rows : List ZoneRow) : ℚ :=
  (rows.map fun z => z.anomaly_days * zoneAggWeight z).sum

/-- `weighted_anomaly_denom` of `summarize_species`. -/
def speciesDenom (rows : List ZoneRow) : ℚ :=
  (rows.map zoneAggWeight).sum

/-- `has_current_zone` of `summarize_species`. -/
def hasCurrentZone (rows : List ZoneRow) : Bool :=
  rows.any fun z => z.has_current

/-- `has_late_without_current` of `summarize_species`. -/
def hasLateNoCurrent (rows : List ZoneRow) : Bool :=
  rows.any fun z => !z.has_current && z.status == "late"

/-- `species_anomaly`: weighted mean, defaulting to 0 on a 0 denominator. -/
def speciesAnomaly (rows : List ZoneRow) : ℚ :=
  if speciesDenom rows = 0 then 0 else speciesNumer rows / speciesDenom rows

/-- `species_status` of `summarize_species`. -/
def speciesStatus (rows : List ZoneRow) : String :=
  if hasCurrentZone rows then classify_status (speciesAnomaly rows)
  else if hasLateNoCurrent rows then "late"
  else "pending"

/-- Zone Results sorted by descending absolute anomaly (stable, as Python's
`sorted` with `reverse=True`). -/
def sortZonesByAnomaly (rows : List ZoneRow) : List ZoneRow :=
  rows.insertionSort fun a b => |b.anomaly_days| ≤ |a.anomaly_days|

/-- A Species Summary.  As in `Observation`, inert identification and
presentation fields (names, urls, the 15 most recent observation links) are
not represented. -/
structure SpeciesSummary where
  status : String
  anomaly_days : ℚ
  zones_used : ℕ
  granularity : String
  zones : List ZoneRow
  current_obs_total : ℕ
  has_current_data : Bool
deriving DecidableEq

/-- `summarize_species`: `none` when no granularity admits any group. -/
def summarize_species (ctx : Ctx) (obs : List Observation) :
    Option SpeciesSummary :=
  let rows := (admittedRows ctx obs).1
  if rows = [] then none
  else some
    { status := speciesStatus rows
      anomaly_days := round2 (speciesAnomaly rows)
      zones_used := rows.length
      granularity := (admittedRows ctx obs).2
      zones := sortZonesByAnomaly rows
      current_obs_total := currentObsState ctx obs
      has_current_data := hasCurrentZone rows }

/-- `granularity_rank` of `pick_indicator_species`. -/
def granularityRank (g : String) : ℕ :=
  if g == "zone" then 2 else if g == "side" then 1 else 0

/-- The sort key of `pick_indicator_species` (all components compared
numerically, as Python compares the tuple entries). -/
def rankKey (s : SpeciesSummary) : ℚ × ℚ × ℚ × ℚ :=
  ((granularityRank s.granularity : ℚ), (s.zones_used : ℚ),
   (s.current_obs_total : ℚ), -|s.anomaly_days|)

/-- Lexicographic ≤ on quadruples, as Python compares key tuples. -/
def lexLe4 (x y : ℚ × ℚ × ℚ × ℚ) : Bool :=
  if x.1 < y.1 then true else if y.1 < x.1 then false
  else if x.2.1 < y.2.1 then true else if y.2.1 < x.2.1 then false
  else if x.2.2.1 < y.2.2.1 then true else if y.2.2.1 < x.2.2.1 then false
  else decide (x.2.2.2 ≤ y.2.2.2)

/-- The descending-by-key order used by the indicator ranking: `a` may come
before `b` iff the key of `b` is lexicographically ≤ the key of `a`. -/
def rankDescLe (a b : SpeciesSummary) : Prop :=
  lexLe4 (rankKey b) (rankKey a) = true

instance : DecidableRel rankDescLe := fun a b => by
  unfold rankDescLe; infer_instance

/-- `pick_indicator_species`: stable descending sort by the ranking key,
truncated to `limit`. -/
def pick_indicator_species (summaries : List SpeciesSummary) (limit : ℕ) :
    List SpeciesSummary :=
  (summaries.insertionSort rankDescLe).take limit

/-- One row of the zone rollup. -/
structure ZoneSummaryRow where
  zone : String
  anomaly_days : ℚ
  status : String
  species_count : ℕ
deriving DecidableEq

/-- All Zone Results of the selected species, in order. -/
def allZoneRows (indicators : List SpeciesSummary) : List ZoneRow :=
  (indicators.map fun s => s.zones).flatten

/-- The zone keys of `zone_data`, in first-appearance order. -/
def rollupZoneNames (indicators : List SpeciesSummary) : List String :=
  ((allZoneRows indicators).map fun r => r.zone).foldl
    (fun acc z => if z ∈ acc then acc else acc ++ [z]) []

/-- The (anomaly, weight) contributors to one rollup zone. -/
def rollupEntries (indicators : List SpeciesSummary) (z : String) :
    List ZoneRow :=
  (allZoneRows indicators).filter fun r => r.zone == z

/-- The rollup weight `max(1,baseline_years)*max(1,current_obs)`. -/
def rollupWeight (r : ZoneRow) : ℚ :=
  ((max 1 r.baseline_years * max 1 r.current_obs : ℕ) : ℚ)

/-- The rollup row of one zone key: weighted mean of its contributing
(anomaly, weight) pairs, 0.0 on a zero denominator. -/
def zoneRollupRow (indicators : List SpeciesSummary) (z : String) :
    ZoneSummaryRow :=
  let vs := rollupEntries indicators z
  let numer := (vs.map fun r => r.anomaly_days * rollupWeight r).sum
  let denom := (vs.map rollupWeight).sum
  let anomaly := if denom = 0 then 0 else numer / denom
  { zone := z, anomaly_days := round2 anomaly,
    status := classify_status anomaly,
    species_count := vs.length }

/-- `build_zone_summary`: weighted mean per zone key, output sorted by zone
name. -/
def build_zone_summary (indicators : List SpeciesSummary) :
    List ZoneSummaryRow :=
  ((rollupZoneNames indicators).map (zoneRollupRow indicators)).insertionSort
    fun a b => a.zone ≤ b.zone

/-- The overall rollup record. -/
structure Overall where
  status : String
  anomaly_days : ℚ
  species_count : ℕ
  species_with_signal : ℕ
  interpretation : String
deriving DecidableEq

/-- The weight of a species in the overall rollup. -/
def overallWeight (s : SpeciesSummary) : ℚ :=
  ((max 1 s.zones_used * max 1 s.current_obs_total : ℕ) : ℚ)

/-- The species contributing to the overall rollup: all non-"pending". -/
def overallContributors (indicators : List SpeciesSummary) :
    List SpeciesSummary :=
  indicators.filter fun s => !(s.status == "pending")

/-- The weighted numerator accumulated by the `overall_status` loop. -/
def overallNumer (indicators : List SpeciesSummary) : ℚ :=
  ((overallContributors indicators).map fun s =>
    s.anomaly_days * overallWeight s).sum

/-- The weighted denominator accumulated by the `overall_status` loop. -/
def overallDenom (indicators : List SpeciesSummary) : ℚ :=
  ((overallContributors indicators).map overallWeight).sum

/-- The overall anomaly: weighted mean, 0.0 on a zero denominator. -/
def overallAnomaly (indicators : List SpeciesSummary) : ℚ :=
  if overallDenom indicators = 0 then 0
  else overallNumer indicators / overallDenom indicators

/-- `overall_status`: weighted mean over non-pending species, with the 0.0
fallback on a zero denominator, classified by the ±7-day thresholds. -/
def overall_status (indicators : List SpeciesSummary) : Overall :=
  let contrib := overallContributors indicators
  let anomaly := overallAnomaly indicators
  { status := classify_status anomaly
    anomaly_days := round2 anomaly
    species_count := indicators.length
    species_with_signal := contrib.length
    interpretation :=
      if anomaly ≤ -7 then
        "Flowering is trending earlier than the 2017-2025 baseline."
      else if 7 ≤ anomaly then
        "Flowering is trending later than the 2017-2025 baseline."
      else "Flowering is close to the 2017-2025 baseline." }

/-- A concrete admitted Zone Result used in witnesses. -/
def rowEarly : ZoneRow :=
  { zone := "west-low", baseline_doy := 71, current_doy := some 60,
    anomaly_days := -11, status := "early", baseline_years := 4,
    current_obs := 2, has_current := true }

/-- A concrete Species Summary with anomaly 10 used in witnesses. -/
def sumBigAnom : SpeciesSummary :=
  { status := "late", anomaly_days := 10, zones_used := 1,
    granularity := "zone", zones := [rowEarly], current_obs_total := 1,
    has_current_data := true }

/-- A concrete Species Summary equal to `sumBigAnom` on the three primary
ranking keys but with the smaller anomaly 5. -/
def sumSmallAnom : SpeciesSummary :=
  { status := "normal", anomaly_days := 5, zones_used := 1,
    granularity := "zone", zones := [rowEarly], current_obs_total := 1,
    has_current_data := true }

/-- A year-to-observations map used in witnesses: three observations at day
71 in each of 2017–2020, nothing elsewhere (in particular nothing in the
current year). -/
def ydW : ℤ → List ℚ :=
  fun y => if 2017 ≤ y ∧ y ≤ 2020 then [71, 71, 71] else []

/-- The analysis context used in witnesses: current year 2026, analysis date
at day-of-year 100. -/
def ctxW : Ctx := { currentYear := 2026, todayDoy := 100 }

/-- The Zone Result produced by `evalRow` on `ydW` under `ctxW`. -/
def rowNoCurrentW : ZoneRow :=
  { zone := "west-low", baseline_doy := 71, current_doy := none,
    anomaly_days := 29, status := "late", baseline_years := 4,
    current_obs := 0, has_current := false }

/-- A west-side observation (lat 47, lon −125, no elevation) used in
witnesses. -/
def mkObsW (y d : ℤ) : Observation :=
  { year := y, doy := d, lat := 47, lon := -125, elev_m := none }

/-- Witness observations: three day-71 observations in each of 2017–2020
plus one current-year (2026) observation at day 150, after the analysis
date 100 of `ctxW`. -/
def obsW : List Observation :=
  [mkObsW 2017 71, mkObsW 2017 71, mkObsW 2017 71,
   mkObsW 2018 71, mkObsW 2018 71, mkObsW 2018 71,
   mkObsW 2019 71, mkObsW 2019 71, mkObsW 2019 71,
   mkObsW 2020 71, mkObsW 2020 71, mkObsW 2020 71,
   mkObsW 2026 150]

/-- The Zone Result of `obsW` at zone granularity: current data exists (the
future-dated day 150) yet the current-observation count is 0. -/
def rowW : ZoneRow :=
  { zone := "west-unknown", baseline_doy := 71, current_doy := some 150,
    anomaly_days := 79, status := "late", baseline_years := 4,
    current_obs := 0, has_current := true }

/-- The Species Summary of `obsW`. -/
def sumW : SpeciesSummary :=
  { status := "late", anomaly_days := 79, zones_used := 1,
    granularity := "zone", zones := [rowW], current_obs_total := 0,
    has_current_data := true }

/-- Witness observations for the side-granularity fallback: only two
observations per baseline year, so zone granularity (min 3 per year) admits
nothing but side granularity (min 2) does; no current-year data. -/
def obsW2 : List Observation :=
  [mkObsW 2017 71, mkObsW 2017 71, mkObsW 2018 71, mkObsW 2018 71,
   mkObsW 2019 71, mkObsW 2019 71, mkObsW 2020 71, mkObsW 2020 71]

/-- The Zone Result of `obsW2` at side granularity. -/
def rowW2 : ZoneRow :=
  { zone := "west", baseline_doy := 71, current_doy := none,
    anomaly_days := 29, status := "late", baseline_years := 4,
    current_obs := 0, has_current := false }

/-- The Species Summary of `obsW2`, evaluated at side granularity. -/
def sumW2 : SpeciesSummary :=
  { status := "late", anomaly_days := 29, zones_used := 1,
    granularity := "side", zones := [rowW2], current_obs_total := 0,
    has_current_data := false }

/-! ## Helper lemmas -/

/-- `classify_status` never yields "pending". -/
theorem classify_status_ne_pending (q : ℚ) : classify_status q ≠ "pending" := by
  unfold classify_status
  split_ifs <;> simp

/-- The fallback keeps a non-empty zone evaluation. -/
theorem selectGranularity_zone (z s st : List ZoneRow) (hz : z ≠ []) :
    selectGranularity z s st = (z, "zone") := by
  unfold selectGranularity
  rw [if_pos hz]

/-- The fallback uses the side evaluation only when the zone evaluation is
empty. -/
theorem selectGranularity_side (z s st : List ZoneRow) (hz : z = [])
    (hs : s ≠ []) : selectGranularity z s st = (s, "side") := by
  unfold selectGranularity
  rw [if_neg (by simp [hz]), if_pos hs]

/-- The fallback uses the statewide evaluation only when both finer
evaluations are empty. -/
theorem selectGranularity_state (z s st : List ZoneRow) (hz : z = [])
    (hs : s = []) : selectGranularity z s st = (st, "state") := by
  unfold selectGranularity
  rw [if_neg (by simp [hz]), if_neg (by simp [hs])]

/-- A row produced by `evalRow` for group `g` carries `g` as its zone key. -/
theorem evalRow_zone (ctx : Ctx) (g : String) (yd : ℤ → List ℚ)
    (c minY minB : ℕ) (row : ZoneRow)
    (hrow : evalRow ctx g yd c minY minB = some row) : row.zone = g := by
  unfold evalRow at hrow
  by_cases h1 : (baselineOnsets ctx yd minY).length < minB
  · rw [if_pos h1] at hrow
    cases hrow
  rw [if_neg h1] at hrow
  by_cases h2 : (yd ctx.currentYear).isEmpty = true
  · rw [if_pos h2] at hrow
    cases hrow; rfl
  · rw [if_neg h2] at hrow
    cases hrow; rfl

/-- Rows of `eval_groups` come from `evalRow` on one of the keys. -/
theorem mem_eval_groups (ctx : Ctx) (keys : List String)
    (yd : String → ℤ → List ℚ) (co : String → ℕ) (minY minB : ℕ)
    (r : ZoneRow) (hr : r ∈ eval_groups ctx keys yd co minY minB) :
    ∃ g ∈ keys, evalRow ctx g (yd g) (co g) minY minB = some r := by
  unfold eval_groups at hr
  obtain ⟨g, hg, hrow⟩ := List.mem_filterMap.mp hr
  exact ⟨g, hg, hrow⟩

/-- Membership in the first-appearance deduplication fold. -/
theorem mem_foldl_dedup (l : List String) :
    ∀ (acc : List String) (x : String),
      (x ∈ l.foldl (fun a z => if z ∈ a then a else a ++ [z]) acc ↔
        x ∈ acc ∨ x ∈ l) := by
  induction l with
  | nil => intro acc x; simp
  | cons z l ih =>
    intro acc x
    rw [List.foldl_cons, ih]
    by_cases hz : z ∈ acc
    · rw [if_pos hz]
      constructor
      · rintro (h | h)
        · exact Or.inl h
        · exact Or.inr (List.mem_cons_of_mem _ h)
      · rintro (h | h)
        · exact Or.inl h
        · rcases List.mem_cons.mp h with rfl | h
          · exact Or.inl hz
          · exact Or.inr h
    · rw [if_neg hz]
      constructor
      · rintro (h | h)
        · rcases List.mem_append.mp h with h | h
          · exact Or.inl h
          · simp only [List.mem_singleton] at h
            exact Or.inr (h ▸ List.mem_cons_self _ _)
        · exact Or.inr (List.mem_cons_of_mem _ h)
      · rintro (h | h)
        · exact Or.inl (List.mem_append.mpr (Or.inl h))
        · rcases List.mem_cons.mp h with rfl | h
          · exact Or.inl (List.mem_append.mpr (Or.inr (by simp)))
          · exact Or.inr h

/-- Membership in the group-key list is membership in the key image. -/
theorem mem_groupKeys (key : Observation → String) (obs : List Observation)
    (k : String) : k ∈ groupKeys key obs ↔ ∃ o ∈ obs, key o = k := by
  unfold groupKeys
  rw [mem_foldl_dedup]
  simp [eq_comm]

/-- `side_of_cascades` always returns "east" or "west". -/
theorem side_of_cascades_cases (lat lon : ℚ) :
    side_of_cascades lat lon = "east" ∨ side_of_cascades lat lon = "west" := by
  unfold side_of_cascades
  split_ifs <;> simp

/-- The `has_current_zone` flag is false exactly when no row has current
data. -/
theorem hasCurrentZone_eq_false_iff (rows : List ZoneRow) :
    hasCurrentZone rows = false ↔ ∀ r ∈ rows, r.has_current = false := by
  unfold hasCurrentZone
  rw [List.any_eq_false]
  constructor
  · intro h r hr
    have := h r hr
    simpa using this
  · intro h r hr
    simp [h r hr]

/-- The `has_current_zone` flag is true exactly when some row has current
data. -/
theorem hasCurrentZone_eq_true_iff (rows : List ZoneRow) :
    hasCurrentZone rows = true ↔ ∃ r ∈ rows, r.has_current = true := by
  unfold hasCurrentZone
  rw [List.any_eq_true]

/-- With no row carrying current data, the `has_late_without_current` flag
is false exactly when no row is classified "late". -/
theorem hasLateNoCurrent_eq_false_iff (rows : List ZoneRow)
    (hnc : ∀ r ∈ rows, r.has_current = false) :
    hasLateNoCurrent rows = false ↔ ∀ r ∈ rows, r.status ≠ "late" := by
  unfold hasLateNoCurrent
  rw [List.any_eq_false]
  constructor
  · intro h r hr hlate
    have := h r hr
    simp [hnc r hr, hlate] at this
  · intro h r hr
    simp [hnc r hr, h r hr]

/-- 20th percentile of `[71, 71, 71]`. -/
theorem percentileD_71_3 : percentileD [71, 71, 71] (0.2 : ℚ) = 71 := by
  norm_num [percentileD, percentile, rat_ceil_eq_neg_floor_neg,
    List.insertionSort, List.orderedInsert]

/-- 20th percentile of `[71, 71]`. -/
theorem percentileD_71_2 : percentileD [71, 71] (0.2 : ℚ) = 71 := by
  norm_num [percentileD, percentile, rat_ceil_eq_neg_floor_neg,
    List.insertionSort, List.orderedInsert]

/-- Median of four equal onsets. -/
theorem median_71_4 : median [71, 71, 71, 71] = 71 := by
  norm_num [median, List.insertionSort, List.orderedInsert]

/-- Projections of the witness observation constructor. -/
theorem mkObsW_year (y d : ℤ) : (mkObsW y d).year = y := rfl

/-- Projections of the witness observation constructor. -/
theorem mkObsW_doy (y d : ℤ) : (mkObsW y d).doy = d := rfl

/-- The witness observations sit west of the divide with unknown elevation. -/
theorem zoneKeyOf_mkObsW (y d : ℤ) : zoneKeyOf (mkObsW y d) = "west-unknown" := by
  norm_num [zoneKeyOf, mkObsW, side_of_cascades, cascade_divide_lon,
    elevation_band]
  decide

/-- The witness observations sit on the west side. -/
theorem sideKeyOf_mkObsW (y d : ℤ) : sideKeyOf (mkObsW y d) = "west" := by
  norm_num [sideKeyOf, mkObsW, side_of_cascades, cascade_divide_lon]

/-- The nine baseline years of `ctxW`. -/
theorem yearsW : (List.range 9).map (fun i : ℕ => ctxW.currentYear - 9 + (i : ℤ)) =
    [2017, 2018, 2019, 2020, 2021, 2022, 2023, 2024, 2025] := by
  decide

/-- Baseline onsets of `obsW` at zone granularity: four qualifying years. -/
theorem baselineOnsets_obsW :
    baselineOnsets ctxW (groupDoys zoneKeyOf obsW "west-unknown") 3 =
      [71, 71, 71, 71] := by
  unfold baselineOnsets
  rw [yearsW]
  simp [groupDoys, obsW, zoneKeyOf_mkObsW, mkObsW_year, mkObsW_doy,
    percentileD_71_3]

/-- The current-year day values of `obsW`: the single future-dated day 150. -/
theorem groupDoys_obsW_current :
    groupDoys zoneKeyOf obsW "west-unknown" ctxW.currentYear = [150] := by
  simp [groupDoys, obsW, zoneKeyOf_mkObsW, mkObsW_year, mkObsW_doy, ctxW]

/-- No current-year observation of `obsW` is on or before the analysis
date. -/
theorem currentCount_obsW :
    currentCount ctxW zoneKeyOf obsW "west-unknown" = 0 := by
  simp [currentCount, obsW, zoneKeyOf_mkObsW, mkObsW_year, mkObsW_doy, ctxW]

/-- Likewise for the statewide count. -/
theorem currentObsState_obsW : currentObsState ctxW obsW = 0 := by
  simp [currentObsState, obsW, mkObsW_year, mkObsW_doy, ctxW]

/-- The zone-granularity row of `obsW`. -/
theorem evalRow_obsW :
    evalRow ctxW "west-unknown" (groupDoys zoneKeyOf obsW "west-unknown")
      (currentCount ctxW zoneKeyOf obsW "west-unknown") 3 4 = some rowW := by
  unfold evalRow
  rw [baselineOnsets_obsW, groupDoys_obsW_current, currentCount_obsW]
  have hp150 : percentileD [150] (0.2 : ℚ) = 150 := rfl
  simp only [median_71_4, hp150, List.isEmpty_cons, List.length_cons,
    List.length_nil]
  norm_num [rowW, ctxW, round1, roundHalfEven, classify_status]

/-- The key list of `obsW` at zone granularity. -/
theorem groupKeys_obsW : groupKeys zoneKeyOf obsW = ["west-unknown"] := by
  simp [groupKeys, obsW, zoneKeyOf_mkObsW]

/-- The zone evaluation of `obsW` is the single admitted row `rowW`. -/
theorem zoneEval_obsW : zoneEval ctxW obsW = [rowW] := by
  unfold zoneEval eval_groups
  rw [groupKeys_obsW]
  simp [evalRow_obsW]

/-- The admitted rows of `obsW`: zone granularity. -/
theorem admittedRows_obsW : admittedRows ctxW obsW = ([rowW], "zone") := by
  unfold admittedRows
  rw [zoneEval_obsW]
  exact selectGranularity_zone _ _ _ (by simp)

/-- The Species Summary of `obsW`. -/
theorem summarize_obsW : summarize_species ctxW obsW = some sumW := by
  unfold summarize_species
  rw [admittedRows_obsW]
  rw [if_neg (by simp)]
  have hagg : zoneAggWeight rowW = 4 := by
    norm_num [zoneAggWeight, rowW]
  have hanom : speciesAnomaly [rowW] = 79 := by
    unfold speciesAnomaly speciesNumer speciesDenom
    rw [List.map_singleton, List.map_singleton, List.sum_singleton,
      List.sum_singleton, hagg]
    norm_num [rowW]
  have hstat : speciesStatus [rowW] = "late" := by
    unfold speciesStatus
    rw [if_pos (by simp [hasCurrentZone, rowW]), hanom]
    norm_num [classify_status]
  have hr79 : round2 (79 : ℚ) = 79 := by norm_num [round2, roundHalfEven]
  rw [hstat, hanom, hr79, currentObsState_obsW]
  have hsort : sortZonesByAnomaly [rowW] = [rowW] := rfl
  rw [hsort]
  have hcur : hasCurrentZone [rowW] = true := by simp [hasCurrentZone, rowW]
  rw [hcur]
  rfl

/-- Every position of the ascending sort of `values` holds a value between
any lower bound and any upper bound of `values`. -/
theorem sort_getD_bounds (values : List ℚ) (m M : ℚ)
    (hmle : ∀ a ∈ values, m ≤ a) (hMge : ∀ a ∈ values, a ≤ M)
    (i : ℕ) (hi : i < values.length) :
    m ≤ (values.insertionSort (· ≤ ·)).getD i 0 ∧
      (values.insertionSort (· ≤ ·)).getD i 0 ≤ M := by
  have hi' : i < (values.insertionSort (· ≤ ·)).length := by
    rw [List.length_insertionSort]; exact hi
  rw [List.getD_eq_getElem _ _ hi']
  have hmem : (values.insertionSort (· ≤ ·))[i] ∈ values := by
    have := List.getElem_mem hi'
    rwa [List.mem_insertionSort] at this
  exact ⟨hmle _ hmem, hMge _ hmem⟩

/-! ## Claims -/

/-- C7: the onset estimator errors (rather than returning a default) on an
empty list of values, for every percentile `p`. -/
theorem percentile_empty_errors (p : ℚ) :
    percentile [] p = Except.error "percentile() requires non-empty values" :=
  rfl

/-- C8: a point whose longitude equals the computed Cascade-divide longitude
at its latitude is classified "west"; "east" is returned exactly when the
longitude is strictly greater than the divide. -/
theorem side_on_divide_is_west :
    (∀ lat : ℚ, side_of_cascades lat (cascade_divide_lon lat) = "west") ∧
    (∀ lat lon : ℚ, side_of_cascades lat lon = "east" ↔
      cascade_divide_lon lat < lon) := by
  constructor
  · intro lat
    unfold side_of_cascades
    rw [if_neg (lt_irrefl _)]
  · intro lat lon
    unfold side_of_cascades
    by_cases h : cascade_divide_lon lat < lon
    · simp [h]
    · simp [h]

/-- C6: for every non-empty list, the 20th-percentile onset estimate lies
within `[min, max]` of the list (stated via an arbitrary least and greatest
element), and on a single-element list the estimator returns that element
exactly (for every `p`). -/
theorem percentile_within_bounds (values : List ℚ) (r m M : ℚ)
    (hok : percentile values (0.2 : ℚ) = Except.ok r)
    (hmle : ∀ a ∈ values, m ≤ a) (hMge : ∀ a ∈ values, a ≤ M) :
    (m ≤ r ∧ r ≤ M) ∧ ∀ x p : ℚ, percentile [x] p = Except.ok x := by
  refine ⟨?_, fun x p => rfl⟩
  unfold percentile at hok
  by_cases hemp : values.isEmpty
  · rw [if_pos hemp] at hok
    exact absurd hok (by simp)
  rw [if_neg hemp] at hok
  by_cases hone : values.length = 1
  · rw [if_pos hone] at hok
    obtain ⟨x, rfl⟩ := List.length_eq_one.mp hone
    have hr : r = x := by simpa [List.headD] using hok.symm
    subst hr
    exact ⟨hmle _ (by simp), hMge _ (by simp)⟩
  rw [if_neg hone] at hok
  have hn2 : 2 ≤ values.length := by
    rcases values with _ | ⟨a, _ | ⟨b, l⟩⟩
    · simp at hemp
    · simp at hone
    · simp only [List.length_cons]; omega
  have hnq : (1 : ℚ) ≤ (values.length : ℚ) - 1 := by
    have : (2 : ℚ) ≤ (values.length : ℚ) := by exact_mod_cast hn2
    linarith
  have h02 : (0.2 : ℚ) = 1/5 := by norm_num
  set idx : ℚ := ((values.length : ℚ) - 1) * (0.2 : ℚ) with hidx
  have hidx0 : 0 ≤ idx := by rw [hidx, h02]; positivity
  have hidxlt : idx ≤ (values.length : ℚ) - 1 := by
    rw [hidx, h02]; nlinarith
  have hfl0 : 0 ≤ ⌊idx⌋ := Int.floor_nonneg.mpr hidx0
  have hflle : ⌊idx⌋ ≤ (values.length : ℤ) - 1 := by
    have h1 : ⌊idx⌋ ≤ ⌊(values.length : ℚ) - 1⌋ := Int.floor_le_floor hidxlt
    have h2 : ⌊(values.length : ℚ) - 1⌋ = (values.length : ℤ) - 1 := by
      rw [show ((values.length : ℚ) - 1) = (((values.length : ℤ) - 1 : ℤ) : ℚ) by
        push_cast; ring]
      exact Int.floor_intCast _
    omega
  have hclle : ⌈idx⌉ ≤ (values.length : ℤ) - 1 := by
    have h1 : ⌈idx⌉ ≤ ⌈(values.length : ℚ) - 1⌉ := Int.ceil_le_ceil hidxlt
    have h2 : ⌈(values.length : ℚ) - 1⌉ = (values.length : ℤ) - 1 := by
      rw [show ((values.length : ℚ) - 1) = (((values.length : ℤ) - 1 : ℤ) : ℚ) by
        push_cast; ring]
      exact Int.ceil_intCast _
    omega
  have hlolen : (⌊idx⌋).toNat < values.length := by omega
  have hhilen : (⌈idx⌉).toNat < values.length := by
    have := Int.le_ceil idx
    have h0 : 0 ≤ ⌈idx⌉ := Int.ceil_nonneg hidx0
    omega
  have hlo := sort_getD_bounds values m M hmle hMge _ hlolen
  have hhi := sort_getD_bounds values m M hmle hMge _ hhilen
  by_cases heq : ⌊idx⌋ = ⌈idx⌉
  · rw [if_pos heq] at hok
    have hr : r = (values.insertionSort (· ≤ ·)).getD (⌊idx⌋).toNat 0 := by
      simpa using hok.symm
    rw [hr]
    exact hlo
  · rw [if_neg heq] at hok
    have hr : r = (values.insertionSort (· ≤ ·)).getD (⌊idx⌋).toNat 0 *
        (1 - (idx - (⌊idx⌋ : ℚ))) +
        (values.insertionSort (· ≤ ·)).getD (⌈idx⌉).toNat 0 * (idx - (⌊idx⌋ : ℚ)) := by
      simpa using hok.symm
    have hfr0 : 0 ≤ idx - (⌊idx⌋ : ℚ) := by
      have := Int.floor_le idx; linarith
    have hfr1 : idx - (⌊idx⌋ : ℚ) ≤ 1 := by
      have := Int.lt_floor_add_one idx; linarith
    obtain ⟨hlo1, hlo2⟩ := hlo
    obtain ⟨hhi1, hhi2⟩ := hhi
    constructor
    · rw [hr]; nlinarith
    · rw [hr]; nlinarith

/-- Witness for C6 at `values = [3, 1, 2]`: the estimate `7/5` lies within
`[1, 3]`, and a singleton is returned exactly. -/
theorem percentile_within_bounds_witness :
    ((1 : ℚ) ≤ 7/5 ∧ (7/5 : ℚ) ≤ 3) ∧
      ∀ x p : ℚ, percentile [x] p = Except.ok x := by
  have hok : percentile [3, 1, 2] (0.2 : ℚ) = Except.ok (7/5) := by
    norm_num [percentile, rat_ceil_eq_neg_floor_neg,
      List.insertionSort, List.orderedInsert]
  have h := percentile_within_bounds [3, 1, 2] (7/5) 1 3 hok
    (by intro a ha; fin_cases ha <;> norm_num)
    (by intro a ha; fin_cases ha <;> norm_num)
  exact h

/-- With its first three components equal on both sides, the lexicographic
key comparison reduces to its fourth component. -/
theorem lexLe4_of_eq_eq_eq (x y : ℚ × ℚ × ℚ × ℚ)
    (h1 : x.1 = y.1) (h2 : x.2.1 = y.2.1) (h3 : x.2.2.1 = y.2.2.1) :
    lexLe4 x y = decide (x.2.2.2 ≤ y.2.2.2) := by
  unfold lexLe4
  rw [h1, h2, h3]
  simp [lt_irrefl]

/-- C1 (counterexample): `sumBigAnom` and `sumSmallAnom` agree on granularity
rank, zones_used and current_obs_total, the first has the larger absolute
anomaly (10 vs 5), yet `pick_indicator_species` ranks the SMALLER-anomaly
summary first — refuting "larger absolute anomaly first". -/
theorem pick_larger_anomaly_first_false :
    granularityRank sumBigAnom.granularity =
      granularityRank sumSmallAnom.granularity ∧
    sumBigAnom.zones_used = sumSmallAnom.zones_used ∧
    sumBigAnom.current_obs_total = sumSmallAnom.current_obs_total ∧
    |sumSmallAnom.anomaly_days| < |sumBigAnom.anomaly_days| ∧
    pick_indicator_species [sumBigAnom, sumSmallAnom] 20 =
      [sumSmallAnom, sumBigAnom] := by
  refine ⟨rfl, rfl, rfl, by norm_num [sumBigAnom, sumSmallAnom], ?_⟩
  have hnot : ¬ rankDescLe sumBigAnom sumSmallAnom := by
    unfold rankDescLe
    rw [lexLe4_of_eq_eq_eq (rankKey sumSmallAnom) (rankKey sumBigAnom)
      rfl rfl rfl]
    norm_num [rankKey, sumBigAnom, sumSmallAnom]
  unfold pick_indicator_species
  simp [List.insertionSort, List.orderedInsert, hnot]

/-- C1 (amended): among summaries tying on (granularity rank, zones_used,
current_obs_total), `pick_indicator_species` ranks the one with the SMALLER
absolute anomaly first (ties broken by ascending absolute anomaly): the
Python key negates the absolute anomaly and the whole tuple is sorted
descending, so the negated component ends up ascending in magnitude. -/
theorem pick_tiebreak_smaller_anomaly_first (a b : SpeciesSummary)
    (h1 : granularityRank a.granularity = granularityRank b.granularity)
    (h2 : a.zones_used = b.zones_used)
    (h3 : a.current_obs_total = b.current_obs_total)
    (h4 : |a.anomaly_days| < |b.anomaly_days|) :
    pick_indicator_species [a, b] 20 = [a, b] ∧
    pick_indicator_species [b, a] 20 = [a, b] := by
  have hab : rankDescLe a b := by
    unfold rankDescLe
    rw [lexLe4_of_eq_eq_eq _ _ (by simp [rankKey, h1]) (by simp [rankKey, h2])
      (by simp [rankKey, h3])]
    simp only [rankKey, decide_eq_true_eq]
    exact neg_le_neg h4.le
  have hba : ¬ rankDescLe b a := by
    unfold rankDescLe
    rw [lexLe4_of_eq_eq_eq _ _ (by simp [rankKey, h1]) (by simp [rankKey, h2])
      (by simp [rankKey, h3])]
    simp only [rankKey, decide_eq_true_eq, not_le]
    exact neg_lt_neg h4
  constructor
  · unfold pick_indicator_species
    simp [List.insertionSort, List.orderedInsert, hab]
  · unfold pick_indicator_species
    simp [List.insertionSort, List.orderedInsert, hba]

/-- Witness for the amended C1 at the concrete pair: the smaller-anomaly
summary is ranked first from either input order. -/
theorem pick_tiebreak_smaller_anomaly_first_witness :
    pick_indicator_species [sumSmallAnom, sumBigAnom] 20 =
      [sumSmallAnom, sumBigAnom] ∧
    pick_indicator_species [sumBigAnom, sumSmallAnom] 20 =
      [sumSmallAnom, sumBigAnom] :=
  pick_tiebreak_smaller_anomaly_first sumSmallAnom sumBigAnom rfl rfl rfl
    (by norm_num [sumSmallAnom, sumBigAnom])

/-- C3: the granularity fallback short-circuits monotonically: a non-empty
zone evaluation is returned as-is with granularity "zone" whatever the side
and statewide evaluations would return; the side result is used only when
the zone evaluation admits no group, and the statewide result only when the
side evaluation admits none either; and a summary produced with a non-empty
zone evaluation records granularity "zone". -/
theorem granularity_fallback_shortcircuit :
    (∀ z s st : List ZoneRow, z ≠ [] →
      selectGranularity z s st = (z, "zone")) ∧
    (∀ z s st : List ZoneRow, z = [] → s ≠ [] →
      selectGranularity z s st = (s, "side")) ∧
    (∀ z s st : List ZoneRow, z = [] → s = [] →
      selectGranularity z s st = (st, "state")) ∧
    (∀ (ctx : Ctx) (obs : List Observation) (sm : SpeciesSummary),
      summarize_species ctx obs = some sm → zoneEval ctx obs ≠ [] →
      sm.granularity = "zone" ∧
      sm.zones = sortZonesByAnomaly (zoneEval ctx obs)) := by
  refine ⟨selectGranularity_zone, selectGranularity_side,
    selectGranularity_state, ?_⟩
  intro ctx obs sm hsm hz
  unfold summarize_species at hsm
  rw [show admittedRows ctx obs = (zoneEval ctx obs, "zone") from
    selectGranularity_zone _ _ _ hz] at hsm
  rw [if_neg hz] at hsm
  cases hsm
  exact ⟨rfl, rfl⟩

/-- Witness for C3: a singleton zone evaluation is kept with granularity
"zone" regardless of the side and statewide results. -/
theorem granularity_fallback_shortcircuit_witness :
    selectGranularity [rowEarly] [] [] = ([rowEarly], "zone") :=
  granularity_fallback_shortcircuit.1 [rowEarly] [] [] (by simp)

/-- C5: the overall rollup's status classifies the weighted mean of
anomaly_days over the selected species that are not "pending", weighted by
`max(1, zones_used) * max(1, current_obs_total)`; its stored anomaly is that
mean rounded to two decimals; the weighted denominator vanishes exactly when
every selected species is "pending", in which case the anomaly defaults to
0.0 (and the status to "normal") instead of raising. -/
theorem overall_rollup_spec (indicators : List SpeciesSummary) :
    (overall_status indicators).status =
      classify_status (overallAnomaly indicators) ∧
    (overall_status indicators).anomaly_days =
      round2 (overallAnomaly indicators) ∧
    (overallDenom indicators = 0 ↔ ∀ s ∈ indicators, s.status = "pending") ∧
    (overallDenom indicators = 0 →
      (overall_status indicators).anomaly_days = 0 ∧
      (overall_status indicators).status = "normal") := by
  have hw1 : ∀ s : SpeciesSummary, (1 : ℚ) ≤ overallWeight s := by
    intro s
    unfold overallWeight
    have : 1 ≤ max 1 s.zones_used * max 1 s.current_obs_total :=
      Nat.one_le_iff_ne_zero.mpr (by positivity)
    exact_mod_cast this
  have hiff : overallDenom indicators = 0 ↔
      ∀ s ∈ indicators, s.status = "pending" := by
    constructor
    · intro h0 s hs
      by_contra hne
      have hmem : s ∈ overallContributors indicators := by
        unfold overallContributors
        rw [List.mem_filter]
        exact ⟨hs, by simpa using hne⟩
      have hle : overallWeight s ≤ overallDenom indicators := by
        unfold overallDenom
        exact List.single_le_sum
          (fun q hq => by
            obtain ⟨t, _, rfl⟩ := List.mem_map.mp hq
            linarith [hw1 t])
          _ (List.mem_map_of_mem _ hmem)
      linarith [hw1 s]
    · intro hall
      have hnil : overallContributors indicators = [] := by
        unfold overallContributors
        rw [List.filter_eq_nil_iff]
        intro s hs
        simp [hall s hs]
      unfold overallDenom
      rw [hnil]
      simp
  refine ⟨rfl, rfl, hiff, ?_⟩
  intro h0
  have hanom : overallAnomaly indicators = 0 := by
    unfold overallAnomaly
    rw [if_pos h0]
  constructor
  · show round2 (overallAnomaly indicators) = 0
    rw [hanom]
    norm_num [round2, roundHalfEven]
  · show classify_status (overallAnomaly indicators) = "normal"
    rw [hanom]
    norm_num [classify_status]

/-- Witness for C5: a singleton non-pending indicator list has overall
status "late" (anomaly 10), via the theorem plus evaluation. -/
theorem overall_rollup_spec_witness :
    (overall_status [sumBigAnom]).status = "late" := by
  rw [(overall_rollup_spec [sumBigAnom]).1]
  have h : overallAnomaly [sumBigAnom] = 10 := by
    unfold overallAnomaly overallNumer overallDenom overallContributors
      overallWeight
    simp [sumBigAnom]
  rw [h]
  norm_num [classify_status]

/-- C4: an admitted group with no current-year observations gets the anomaly
today's day-of-year minus the group's baseline onset (the median of its
qualifying yearly onsets), stored rounded to one decimal as all row
anomalies are, and its status is "late" when that anomaly is ≥ 7 and
"pending" otherwise. -/
theorem evalRow_no_current_spec (ctx : Ctx) (g : String) (yd : ℤ → List ℚ)
    (c minY minB : ℕ) (row : ZoneRow)
    (hrow : evalRow ctx g yd c minY minB = some row)
    (hempty : yd ctx.currentYear = []) :
    row.anomaly_days =
      round1 ((ctx.todayDoy : ℚ) - median (baselineOnsets ctx yd minY)) ∧
    (row.status = "late" ↔
      7 ≤ (ctx.todayDoy : ℚ) - median (baselineOnsets ctx yd minY)) ∧
    (row.status = "pending" ↔
      (ctx.todayDoy : ℚ) - median (baselineOnsets ctx yd minY) < 7) := by
  unfold evalRow at hrow
  by_cases hadm : (baselineOnsets ctx yd minY).length < minB
  · rw [if_pos hadm] at hrow
    cases hrow
  rw [if_neg hadm] at hrow
  rw [hempty] at hrow
  simp only [List.isEmpty_nil, if_true] at hrow
  cases hrow
  refine ⟨rfl, ?_, ?_⟩
  · by_cases h7 : 7 ≤ (ctx.todayDoy : ℚ) - median (baselineOnsets ctx yd minY)
    · simp [h7]
    · simp [h7]
  · by_cases h7 : 7 ≤ (ctx.todayDoy : ℚ) - median (baselineOnsets ctx yd minY)
    · simp [h7, not_lt.mpr h7]
    · simp [h7, not_le.mp h7]

/-- Witness for C4: four baseline years of onsets 71 (median 71), zero
current-year observations, analysis day 100 → anomaly 29, status "late". -/
theorem evalRow_no_current_spec_witness :
    rowNoCurrentW.anomaly_days =
      round1 ((ctxW.todayDoy : ℚ) - median (baselineOnsets ctxW ydW 3)) ∧
    (rowNoCurrentW.status = "late" ↔
      7 ≤ (ctxW.todayDoy : ℚ) - median (baselineOnsets ctxW ydW 3)) ∧
    (rowNoCurrentW.status = "pending" ↔
      (ctxW.todayDoy : ℚ) - median (baselineOnsets ctxW ydW 3) < 7) := by
  have hyears : (List.range 9).map (fun i : ℕ => ctxW.currentYear - 9 + (i : ℤ)) =
      [2017, 2018, 2019, 2020, 2021, 2022, 2023, 2024, 2025] := by
    decide
  have hbase : baselineOnsets ctxW ydW 3 = [71, 71, 71, 71] := by
    unfold baselineOnsets
    rw [hyears]
    simp [ydW, percentileD_71_3]
  have hrow : evalRow ctxW "west-low" ydW 0 3 4 = some rowNoCurrentW := by
    unfold evalRow
    rw [hbase]
    have hcur : ydW ctxW.currentYear = [] := by norm_num [ydW, ctxW]
    rw [hcur]
    simp only [List.isEmpty_nil, if_true, List.length_cons, List.length_nil]
    rw [if_neg (by norm_num)]
    have hmed : median [(71 : ℚ), 71, 71, 71] = 71 := median_71_4
    rw [hmed]
    have h29 : ((ctxW.todayDoy : ℚ)) - 71 = 29 := by norm_num [ctxW]
    rw [h29]
    rw [if_pos (by norm_num)]
    have hr1a : round1 (29 : ℚ) = 29 := by norm_num [round1, roundHalfEven]
    have hr1b : round1 (71 : ℚ) = 71 := by norm_num [round1, roundHalfEven]
    rw [hr1a, hr1b]
    rfl
  exact evalRow_no_current_spec ctxW "west-low" ydW 0 3 4 rowNoCurrentW hrow
    (by norm_num [ydW, ctxW])

/-- C2: a Species Summary's status is "pending" iff no admitted row has
current-year data and no admitted row is classified "late"; when some row
has current data the status classifies the weighted species anomaly; when
none does but some row is "late", the status is "late". -/
theorem species_status_spec (ctx : Ctx) (obs : List Observation)
    (s : SpeciesSummary) (rows : List ZoneRow) (g : String)
    (hs : summarize_species ctx obs = some s)
    (hrows : admittedRows ctx obs = (rows, g)) :
    (s.status = "pending" ↔
      (∀ r ∈ rows, r.has_current = false) ∧ (∀ r ∈ rows, r.status ≠ "late")) ∧
    ((∃ r ∈ rows, r.has_current = true) →
      s.status = classify_status (speciesAnomaly rows)) ∧
    ((∀ r ∈ rows, r.has_current = false) → (∃ r ∈ rows, r.status = "late") →
      s.status = "late") := by
  unfold summarize_species at hs
  rw [hrows] at hs
  by_cases hnil : rows = []
  · rw [if_pos hnil] at hs
    cases hs
  rw [if_neg hnil] at hs
  injection hs with hs
  subst hs
  refine ⟨?_, ?_, ?_⟩
  · show speciesStatus rows = "pending" ↔ _
    unfold speciesStatus
    by_cases h1 : hasCurrentZone rows = true
    · rw [if_pos h1]
      constructor
      · intro hp
        exact absurd hp (classify_status_ne_pending _)
      · rintro ⟨hnc, _⟩
        have hfalse := (hasCurrentZone_eq_false_iff rows).mpr hnc
        rw [hfalse] at h1
        cases h1
    · have h1' : hasCurrentZone rows = false := by
        simpa using h1
      rw [if_neg h1]
      have hnc := (hasCurrentZone_eq_false_iff rows).mp h1'
      by_cases h2 : hasLateNoCurrent rows = true
      · rw [if_pos h2]
        constructor
        · intro hp
          simp at hp
        · rintro ⟨_, hnl⟩
          have := (hasLateNoCurrent_eq_false_iff rows hnc).mpr hnl
          rw [this] at h2
          cases h2
      · have h2' : hasLateNoCurrent rows = false := by
          simpa using h2
        rw [if_neg h2]
        have hnl := (hasLateNoCurrent_eq_false_iff rows hnc).mp h2'
        constructor
        · intro _
          exact ⟨hnc, hnl⟩
        · intro _
          rfl
  · show _ → speciesStatus rows = _
    intro hex
    have h1 : hasCurrentZone rows = true :=
      (hasCurrentZone_eq_true_iff rows).mpr hex
    unfold speciesStatus
    rw [if_pos h1]
  · show _ → _ → speciesStatus rows = _
    intro hnc hex
    have h1 : hasCurrentZone rows = false :=
      (hasCurrentZone_eq_false_iff rows).mpr hnc
    have h2 : hasLateNoCurrent rows = true := by
      unfold hasLateNoCurrent
      rw [List.any_eq_true]
      obtain ⟨r, hr, hlate⟩ := hex
      exact ⟨r, hr, by simp [hnc r hr, hlate]⟩
    unfold speciesStatus
    rw [if_neg (by simp [h1]), if_pos h2]

/-- C9: if an admitted zone group has current-year observations but all of
them are dated strictly after the analysis date, its Zone Result still has
`has_current = true` and a current onset computed from those future-dated
values, while its `current_obs` count is 0 — the count and the flag
disagree because the count keeps only observations on or before the
analysis date but the onset list keeps the whole current year. -/
theorem future_dated_current_disagreement (ctx : Ctx) (obs : List Observation)
    (g : String) (row : ZoneRow)
    (hrow : evalRow ctx g (groupDoys zoneKeyOf obs g)
      (currentCount ctx zoneKeyOf obs g) 3 4 = some row)
    (hne : groupDoys zoneKeyOf obs g ctx.currentYear ≠ [])
    (hfut : ∀ o ∈ obs, zoneKeyOf o = g → o.year = ctx.currentYear →
      ctx.todayDoy < o.doy) :
    row.has_current = true ∧ row.current_obs = 0 ∧
    row.current_doy = some (round1
      (percentileD (groupDoys zoneKeyOf obs g ctx.currentYear) (0.2 : ℚ))) := by
  have hcount : currentCount ctx zoneKeyOf obs g = 0 := by
    unfold currentCount
    rw [List.length_eq_zero]
    rw [List.filter_eq_nil_iff]
    intro o ho
    simp only [Bool.and_eq_true, beq_iff_eq, decide_eq_true_eq, not_and]
    rintro ⟨hzone, hyear⟩ hle
    exact absurd hle (not_le.mpr (hfut o ho hzone hyear))
  unfold evalRow at hrow
  by_cases h1 : (baselineOnsets ctx (groupDoys zoneKeyOf obs g) 3).length < 4
  · rw [if_pos h1] at hrow
    cases hrow
  rw [if_neg h1] at hrow
  obtain ⟨d, ds, hcons⟩ := List.exists_cons_of_ne_nil hne
  rw [hcons] at hrow ⊢
  rw [if_neg (by simp)] at hrow
  injection hrow with hrow
  subst hrow
  exact ⟨rfl, hcount, rfl⟩

/-- Witness for C2 at the concrete `obsW` run: the summary has current data,
so its status classifies the weighted species anomaly and is not
"pending". -/
theorem species_status_spec_witness :
    sumW.status = classify_status (speciesAnomaly [rowW]) ∧
    (sumW.status = "pending" ↔
      (∀ r ∈ [rowW], r.has_current = false) ∧
      (∀ r ∈ [rowW], r.status ≠ "late")) := by
  have h := species_status_spec ctxW obsW sumW [rowW] "zone"
    summarize_obsW admittedRows_obsW
  exact ⟨h.2.1 ⟨rowW, by simp, rfl⟩, h.1⟩

/-- Witness for C9 at the concrete `obsW` run: the future-dated day-150
observation makes `has_current` true and feeds the current onset while the
current-observation count stays 0. -/
theorem future_dated_current_disagreement_witness :
    rowW.has_current = true ∧ rowW.current_obs = 0 ∧
    rowW.current_doy = some (round1 (percentileD
      (groupDoys zoneKeyOf obsW "west-unknown" ctxW.currentYear) (0.2 : ℚ))) := by
  refine future_dated_current_disagreement ctxW obsW "west-unknown" rowW
    evalRow_obsW ?_ ?_
  · rw [groupDoys_obsW_current]
    simp
  · intro o ho hzone hyear
    fin_cases ho <;> simp [mkObsW, ctxW] at hyear ⊢

/-- Zone granularity admits nothing on `obsW2` (two observations per year
is below the zone threshold of three). -/
theorem baselineOnsets_obsW2_zone :
    baselineOnsets ctxW (groupDoys zoneKeyOf obsW2 "west-unknown") 3 = [] := by
  unfold baselineOnsets
  rw [yearsW]
  simp [groupDoys, obsW2, zoneKeyOf_mkObsW, mkObsW_year, mkObsW_doy]

/-- The zone keys of `obsW2`. -/
theorem groupKeys_obsW2_zone : groupKeys zoneKeyOf obsW2 = ["west-unknown"] := by
  simp [groupKeys, obsW2, zoneKeyOf_mkObsW]

/-- The zone evaluation of `obsW2` admits no group. -/
theorem zoneEval_obsW2 : zoneEval ctxW obsW2 = [] := by
  unfold zoneEval eval_groups
  rw [groupKeys_obsW2_zone]
  have hnone : evalRow ctxW "west-unknown"
      (groupDoys zoneKeyOf obsW2 "west-unknown")
      (currentCount ctxW zoneKeyOf obsW2 "west-unknown") 3 4 = none := by
    unfold evalRow
    rw [baselineOnsets_obsW2_zone]
    rw [if_pos (by norm_num)]
  simp [hnone]

/-- The side keys of `obsW2`. -/
theorem groupKeys_obsW2_side : groupKeys sideKeyOf obsW2 = ["west"] := by
  simp [groupKeys, obsW2, sideKeyOf_mkObsW]

/-- Side granularity admits four qualifying years on `obsW2`. -/
theorem baselineOnsets_obsW2_side :
    baselineOnsets ctxW (groupDoys sideKeyOf obsW2 "west") 2 =
      [71, 71, 71, 71] := by
  unfold baselineOnsets
  rw [yearsW]
  simp [groupDoys, obsW2, sideKeyOf_mkObsW, mkObsW_year, mkObsW_doy,
    percentileD_71_2]

/-- `obsW2` has no current-year observations at all. -/
theorem groupDoys_obsW2_side_current :
    groupDoys sideKeyOf obsW2 "west" ctxW.currentYear = [] := by
  simp [groupDoys, obsW2, sideKeyOf_mkObsW, mkObsW_year, ctxW]

/-- The side current-observation count of `obsW2` is 0. -/
theorem currentCount_obsW2 :
    currentCount ctxW sideKeyOf obsW2 "west" = 0 := by
  simp [currentCount, obsW2, sideKeyOf_mkObsW, mkObsW_year, mkObsW_doy, ctxW]

/-- The statewide current-observation count of `obsW2` is 0. -/
theorem currentObsState_obsW2 : currentObsState ctxW obsW2 = 0 := by
  simp [currentObsState, obsW2, mkObsW_year, mkObsW_doy, ctxW]

/-- The side-granularity row of `obsW2`. -/
theorem evalRow_obsW2_side :
    evalRow ctxW "west" (groupDoys sideKeyOf obsW2 "west")
      (currentCount ctxW sideKeyOf obsW2 "west") 2 4 = some rowW2 := by
  unfold evalRow
  rw [baselineOnsets_obsW2_side, groupDoys_obsW2_side_current,
    currentCount_obsW2]
  simp only [median_71_4, List.isEmpty_nil, List.length_cons, List.length_nil]
  norm_num [rowW2, ctxW, round1, roundHalfEven]

/-- The side evaluation of `obsW2` is the single admitted row `rowW2`. -/
theorem sideEval_obsW2 : sideEval ctxW obsW2 = [rowW2] := by
  unfold sideEval eval_groups
  rw [groupKeys_obsW2_side]
  simp [evalRow_obsW2_side]

/-- The admitted rows of `obsW2`: side granularity via fallback. -/
theorem admittedRows_obsW2 : admittedRows ctxW obsW2 = ([rowW2], "side") := by
  unfold admittedRows
  rw [zoneEval_obsW2, sideEval_obsW2]
  exact selectGranularity_side _ _ _ rfl (by simp)

/-- The Species Summary of `obsW2`. -/
theorem summarize_obsW2 : summarize_species ctxW obsW2 = some sumW2 := by
  unfold summarize_species
  rw [admittedRows_obsW2, if_neg (by simp)]
  have hagg : zoneAggWeight rowW2 = 4 := by
    norm_num [zoneAggWeight, rowW2]
  have hanom : speciesAnomaly [rowW2] = 29 := by
    unfold speciesAnomaly speciesNumer speciesDenom
    rw [List.map_singleton, List.map_singleton, List.sum_singleton,
      List.sum_singleton, hagg]
    norm_num [rowW2]
  have hcur : hasCurrentZone [rowW2] = false := by
    simp [hasCurrentZone, rowW2]
  have hlate : hasLateNoCurrent [rowW2] = true := by
    simp [hasLateNoCurrent, rowW2]
  have hstat : speciesStatus [rowW2] = "late" := by
    unfold speciesStatus
    rw [if_neg (by simp [hcur]), if_pos hlate]
  have hr29 : round2 (29 : ℚ) = 29 := by norm_num [round2, roundHalfEven]
  rw [hstat, hanom, hr29, currentObsState_obsW2, hcur]
  rfl

/-- The fields a Species Summary inherits from the admitted rows. -/
theorem summarize_fields (ctx : Ctx) (obs : List Observation)
    (s : SpeciesSummary) (hs : summarize_species ctx obs = some s) :
    s.granularity = (admittedRows ctx obs).2 ∧
    s.zones = sortZonesByAnomaly (admittedRows ctx obs).1 ∧
    (admittedRows ctx obs).1 ≠ [] := by
  unfold summarize_species at hs
  by_cases hnil : (admittedRows ctx obs).1 = []
  · rw [if_pos hnil] at hs
    cases hs
  · rw [if_neg hnil] at hs
    injection hs with hs
    subst hs
    exact ⟨rfl, rfl, hnil⟩

/-- C10: a summary evaluated at side granularity carries only "east"/"west"
zone keys and one evaluated statewide only "statewide"; the zone rollup
groups by exactly the zone strings found in the selected summaries' rows,
whichever granularity produced them. -/
theorem side_state_zone_keys (ctx : Ctx) (obs : List Observation)
    (s : SpeciesSummary) (hs : summarize_species ctx obs = some s) :
    (s.granularity = "side" →
      ∀ r ∈ s.zones, r.zone = "east" ∨ r.zone = "west") ∧
    (s.granularity = "state" → ∀ r ∈ s.zones, r.zone = "statewide") ∧
    (∀ (indicators : List SpeciesSummary) (z : String),
      (∃ t ∈ build_zone_summary indicators, t.zone = z) ↔
      ∃ r ∈ allZoneRows indicators, r.zone = z) := by
  obtain ⟨hg, hzs, hne⟩ := summarize_fields ctx obs s hs
  refine ⟨?_, ?_, ?_⟩
  · intro hside r hr
    by_cases h1 : zoneEval ctx obs = []
    · by_cases h2 : sideEval ctx obs = []
      · rw [show admittedRows ctx obs = (stateEval ctx obs, "state") from
          selectGranularity_state _ _ _ h1 h2] at hg
        rw [hg] at hside
        exact absurd hside (by simp)
      · rw [show admittedRows ctx obs = (sideEval ctx obs, "side") from
          selectGranularity_side _ _ _ h1 h2] at hzs
        have hr' : r ∈ sideEval ctx obs := by
          rw [hzs] at hr
          unfold sortZonesByAnomaly at hr
          rwa [List.mem_insertionSort] at hr
        unfold sideEval at hr'
        obtain ⟨g, hgk, hrow⟩ := mem_eval_groups _ _ _ _ _ _ r hr'
        have hzone := evalRow_zone _ _ _ _ _ _ r hrow
        rw [mem_groupKeys] at hgk
        obtain ⟨o, _, hko⟩ := hgk
        rw [hzone, ← hko]
        unfold sideKeyOf
        exact side_of_cascades_cases o.lat o.lon
    · rw [show admittedRows ctx obs = (zoneEval ctx obs, "zone") from
        selectGranularity_zone _ _ _ h1] at hg
      rw [hg] at hside
      exact absurd hside (by simp)
  · intro hstate r hr
    by_cases h1 : zoneEval ctx obs = []
    · by_cases h2 : sideEval ctx obs = []
      · rw [show admittedRows ctx obs = (stateEval ctx obs, "state") from
          selectGranularity_state _ _ _ h1 h2] at hzs
        have hr' : r ∈ stateEval ctx obs := by
          rw [hzs] at hr
          unfold sortZonesByAnomaly at hr
          rwa [List.mem_insertionSort] at hr
        unfold stateEval at hr'
        obtain ⟨g, hgk, hrow⟩ := mem_eval_groups _ _ _ _ _ _ r hr'
        have hzone := evalRow_zone _ _ _ _ _ _ r hrow
        simp only [List.mem_singleton] at hgk
        rw [hzone, hgk]
      · rw [show admittedRows ctx obs = (sideEval ctx obs, "side") from
          selectGranularity_side _ _ _ h1 h2] at hg
        rw [hg] at hstate
        exact absurd hstate (by simp)
    · rw [show admittedRows ctx obs = (zoneEval ctx obs, "zone") from
        selectGranularity_zone _ _ _ h1] at hg
      rw [hg] at hstate
      exact absurd hstate (by simp)
  · intro indicators z
    constructor
    · rintro ⟨t, ht, htz⟩
      unfold build_zone_summary at ht
      rw [List.mem_insertionSort] at ht
      obtain ⟨n, hn, hFn⟩ := List.mem_map.mp ht
      have hnz : n = z := by
        rw [← htz, ← hFn]
        rfl
      subst hnz
      unfold rollupZoneNames at hn
      rw [mem_foldl_dedup] at hn
      rcases hn with h | h
      · cases h
      · obtain ⟨r, hr, hrz⟩ := List.mem_map.mp h
        exact ⟨r, hr, hrz⟩
    · rintro ⟨r, hr, hrz⟩
      have hmem : z ∈ rollupZoneNames indicators := by
        unfold rollupZoneNames
        rw [mem_foldl_dedup]
        exact Or.inr (List.mem_map.mpr ⟨r, hr, hrz⟩)
      refine ⟨zoneRollupRow indicators z, ?_, rfl⟩
      unfold build_zone_summary
      rw [List.mem_insertionSort]
      exact List.mem_map_of_mem _ hmem

/-- Witness for C10 at the concrete side-granularity run `obsW2`: the single
zone key is "west", and the rollup over this summary carries the key
"west". -/
theorem side_state_zone_keys_witness :
    (rowW2.zone = "east" ∨ rowW2.zone = "west") ∧
    ∃ t ∈ build_zone_summary [sumW2], t.zone = "west" := by
  have h := side_state_zone_keys ctxW obsW2 sumW2 summarize_obsW2
  constructor
  · exact h.1 rfl rowW2 (by simp [sumW2])
  · exact (h.2.2 [sumW2] "west").mpr ⟨rowW2, by simp [allZoneRows, sumW2], rfl⟩

end SpringAnalysis
